import Mathlib

/-!
Shallow embedding of the `Market_Intelligence` data pipeline
(`src/data/processor.py`, `src/ai/llm.py`) and proofs about it.

Numeric cells of the pandas dataframes are modelled by `FVal`: a finite
rational, `+∞`, `-∞` or `NaN`, mirroring IEEE float64 behaviour of the
operations the code uses (division by zero yields `±∞` for a nonzero
numerator and `NaN` for `0/0`; `NaN` propagates; `fillna(0)` replaces only
`NaN`).  Dates are modelled by `ℕ` (the code parses them with
`pd.to_datetime`; only equality, ordering and grouping of dates matter to
the pipeline).
-/

/-- A pandas float64 cell: finite rational, `+∞`, `-∞`, or `NaN`. -/
inductive FVal where
  | fin (q : ℚ)
  | pinf
  | ninf
  | nan
deriving DecidableEq, Repr

namespace FVal

/-- IEEE-style addition (as numpy performs it): `NaN` propagates,
`+∞ + -∞ = NaN`, infinities absorb finite values. -/
def add : FVal → FVal → FVal
  | nan, _ => nan
  | _, nan => nan
  | pinf, ninf => nan
  | ninf, pinf => nan
  | pinf, _ => pinf
  | _, pinf => pinf
  | ninf, _ => ninf
  | _, ninf => ninf
  | fin a, fin b => fin (a + b)

/-- IEEE-style negation. -/
def neg : FVal → FVal
  | fin q => fin (-q)
  | pinf => ninf
  | ninf => pinf
  | nan => nan

/-- IEEE-style subtraction. -/
def sub (a b : FVal) : FVal := add a (neg b)

/-- IEEE-style multiplication: `NaN` propagates, `∞ · 0 = NaN`,
otherwise signs multiply. -/
def mul : FVal → FVal → FVal
  | nan, _ => nan
  | _, nan => nan
  | fin a, fin b => fin (a * b)
  | pinf, pinf => pinf
  | pinf, ninf => ninf
  | ninf, pinf => ninf
  | ninf, ninf => pinf
  | pinf, fin b => if 0 < b then pinf else if b < 0 then ninf else nan
  | fin a, pinf => if 0 < a then pinf else if a < 0 then ninf else nan
  | ninf, fin b => if 0 < b then ninf else if b < 0 then pinf else nan
  | fin a, ninf => if 0 < a then ninf else if a < 0 then pinf else nan

/-- IEEE-style division as numpy performs it: `NaN` propagates,
`a / 0 = ±∞` for `a ≠ 0`, `0 / 0 = NaN`, finite over infinite is `0`,
`∞ / ∞ = NaN`. -/
def div : FVal → FVal → FVal
  | nan, _ => nan
  | _, nan => nan
  | fin a, fin b =>
      if b ≠ 0 then fin (a / b)
      else if 0 < a then pinf else if a < 0 then ninf else nan
  | pinf, fin b => if 0 ≤ b then pinf else ninf
  | ninf, fin b => if 0 ≤ b then ninf else pinf
  | fin _, pinf => fin 0
  | fin _, ninf => fin 0
  | pinf, pinf => nan
  | pinf, ninf => nan
  | ninf, pinf => nan
  | ninf, ninf => nan

/-- Python's `x > 0` on a float cell: true for `+∞` and positive finite
values, false for `NaN` (all comparisons with `NaN` are false). -/
def isPos : FVal → Bool
  | fin q => decide (0 < q)
  | pinf => true
  | _ => false

/-- Model of `Series.fillna(0)` applied to one cell: only `NaN` is replaced. -/
def fillna0 : FVal → FVal
  | nan => fin 0
  | x => x

/-- Round a rational to the nearest integer, ties to even
(numpy's rounding mode). -/
def roundHalfEven (q : ℚ) : ℤ :=
  let f := ⌊q⌋
  let r := q - (f : ℚ)
  if r < 1/2 then f
  else if 1/2 < r then f + 1
  else if f % 2 = 0 then f else f + 1

/-- Model of `round(2)` on a rational: round to two decimal places, ties to even. -/
def round2 (q : ℚ) : ℚ := (roundHalfEven (q * 100) : ℚ) / 100

/-- Model of `Series.round(2)` applied to one cell: infinities and `NaN` are
unchanged. -/
def rnd2 : FVal → FVal
  | fin q => fin (round2 q)
  | x => x

/-- Model of `Series.sum()` with pandas' default `skipna=True`: `NaN` entries are
skipped, the rest are added left to right (a sum over no entries is `0`,
as pandas returns `0.0` for an all-`NaN` column). -/
def nsum (l : List FVal) : FVal :=
  (l.filter (fun x => x ≠ nan)).foldl add (fin 0)

/-- Model of `Series.mean()` with `skipna=True`: the sum of the non-`NaN` entries
divided by their count; the mean over no entries is `NaN`. -/
def nmean (l : List FVal) : FVal :=
  let v := l.filter (fun x => x ≠ nan)
  div (v.foldl add (fin 0)) (fin (v.length : ℚ))

end FVal

/-- Model of `PLATFORMS = ['Facebook', 'Google', 'TikTok']` (processor.py line 11). -/
def PLATFORMS : List String := ["Facebook", "Google", "TikTok"]

/-- Model of `MARKETING_COLUMNS` (processor.py line 12): the fixed set of columns
coerced to numeric. -/
def MARKETING_COLUMNS : List String :=
  ["impression", "clicks", "spend", "attributed revenue"]

/-- A raw CSV cell before numeric coercion: a number (any value
`pd.to_numeric` parses is represented by the number it parses to), a text
value that does not parse as a number, or an empty cell. -/
inductive Cell where
  | num (q : ℚ)
  | text (s : String)
  | blank
deriving DecidableEq, Repr

/-- Model of `pd.to_numeric(col, errors='coerce')` on one cell: numbers pass
through, unparseable text and empty cells become `NaN` (processor.py
line 68). -/
def to_numeric_coerce : Cell → FVal
  | .num q => .fin q
  | .text _ => .nan
  | .blank => .nan

/-- A marketing CSV row as read from `dataset/{platform}.csv`, before
`load_data` adds the `platform` column. -/
structure CsvMarketingRow where
  date : ℕ
  impression : Cell
  clicks : Cell
  spend : Cell
  arev : Cell
deriving DecidableEq, Repr

/-- A marketing row after `load_data` tagged it with its platform
(`df['platform'] = platform`, processor.py line 36). -/
structure RawMarketingRow where
  date : ℕ
  platform : String
  impression : Cell
  clicks : Cell
  spend : Cell
  arev : Cell
deriving DecidableEq, Repr

/-- A marketing row after `_clean_marketing_data`: dates parsed, the four
`MARKETING_COLUMNS` coerced to numeric.  `arev` is the column named
`attributed revenue`. -/
structure MarketingRow where
  date : ℕ
  platform : String
  impression : FVal
  clicks : FVal
  spend : FVal
  arev : FVal
deriving DecidableEq, Repr

/-- Model of `load_data` (processor.py lines 29-46), successful path: for each
platform in `PLATFORMS`, read its CSV and set every row's `platform`
column to the platform name.  The result models `self.marketing_dfs`
(a dict keyed by platform, in insertion order). -/
def load_data (files : String → List CsvMarketingRow) :
    List (String × List RawMarketingRow) :=
  PLATFORMS.map fun p =>
    (p, (files p).map fun r =>
      { date := r.date, platform := p, impression := r.impression,
        clicks := r.clicks, spend := r.spend, arev := r.arev })

/-- Cell lookup in a raw marketing row by pandas column name. -/
def rawCol (r : RawMarketingRow) : String → Option Cell
  | "impression" => some r.impression
  | "clicks" => some r.clicks
  | "spend" => some r.spend
  | "attributed revenue" => some r.arev
  | _ => none

/-- Cell lookup in a cleaned marketing row by pandas column name. -/
def cleanCol (r : MarketingRow) : String → Option FVal
  | "impression" => some r.impression
  | "clicks" => some r.clicks
  | "spend" => some r.spend
  | "attributed revenue" => some r.arev
  | _ => none

/-- Model of `_convert_numeric_columns` (processor.py lines 64-68) on one row:
each of the `MARKETING_COLUMNS` is coerced with
`pd.to_numeric(..., errors='coerce')`. -/
def convert_numeric_columns (r : RawMarketingRow) : MarketingRow :=
  { date := r.date, platform := r.platform,
    impression := to_numeric_coerce r.impression,
    clicks := to_numeric_coerce r.clicks,
    spend := to_numeric_coerce r.spend,
    arev := to_numeric_coerce r.arev }

/-- Model of `_clean_marketing_data` (processor.py lines 58-62) on one platform's
table: parse dates (identity in this model, dates already being `ℕ`) and
coerce the numeric columns. -/
def clean_marketing_table (df : List RawMarketingRow) : List MarketingRow :=
  df.map convert_numeric_columns

/-- A marketing row with the four derived KPI columns added by
`_calculate_platform_kpis`. -/
structure MarketingKpiRow extends MarketingRow where
  ctr : FVal
  cpc : FVal
  cpm : FVal
  roas : FVal
deriving DecidableEq, Repr

/-- Model of `_calculate_platform_kpis` (processor.py lines 80-95) on one row of
the copied frame: each KPI series is computed from the original columns,
then `fillna(0)` and `round(2)` are applied. -/
def kpiRow (r : MarketingRow) : MarketingKpiRow :=
  { toMarketingRow := r,
    ctr := FVal.rnd2 (FVal.fillna0
      (FVal.mul (FVal.div r.clicks r.impression) (FVal.fin 100))),
    cpc := FVal.rnd2 (FVal.fillna0 (FVal.div r.spend r.clicks)),
    cpm := FVal.rnd2 (FVal.fillna0
      (FVal.div r.spend (FVal.div r.impression (FVal.fin 1000)))),
    roas := FVal.rnd2 (FVal.fillna0 (FVal.div r.arev r.spend)) }

/-- Model of `_calculate_platform_kpis` on a whole platform table: the frame is
copied (`df.copy()`), so the input table is not modified; the KPI columns
are computed row-wise. -/
def calculate_platform_kpis (df : List MarketingRow) : List MarketingKpiRow :=
  df.map kpiRow



/-- A business row as read from `dataset/business.csv` after
`_clean_business_data` (dates parsed).  Field names follow
`BUSINESS_COLUMNS` (processor.py lines 13-19): `orders` is `# of orders`,
`new_orders` is `# of new orders`, `new_customers` is `new customers`,
`revenue` is `total revenue`, `profit` is `gross profit`. -/
structure BusinessRow where
  date : ℕ
  orders : FVal
  new_orders : FVal
  new_customers : FVal
  revenue : FVal
  profit : FVal
deriving DecidableEq, Repr

/-- A business row with the KPI columns added by
`calculate_business_kpis`. -/
structure BusinessKpiRow extends BusinessRow where
  aov : FVal
  profit_margin : FVal
  new_customer_rate : FVal
deriving DecidableEq, Repr

/-- Model of `calculate_business_kpis` (processor.py lines 97-115) on one row of
the copied frame: each KPI series is computed with `round(2)`, then
assigned with `fillna(0)`. -/
def businessKpiRow (r : BusinessRow) : BusinessKpiRow :=
  { toBusinessRow := r,
    aov := FVal.fillna0 (FVal.rnd2 (FVal.div r.revenue r.orders)),
    profit_margin := FVal.fillna0 (FVal.rnd2
      (FVal.mul (FVal.div r.profit r.revenue) (FVal.fin 100))),
    new_customer_rate := FVal.fillna0 (FVal.rnd2
      (FVal.mul (FVal.div r.new_customers r.orders) (FVal.fin 100))) }

/-- Model of `calculate_business_kpis` on the stored business table: `None` when
no business data was loaded, otherwise the KPI columns are added to a
copy row-wise. -/
def calculate_business_kpis (b : Option (List BusinessRow)) :
    Option (List BusinessKpiRow) :=
  b.map (List.map businessKpiRow)

/-- One platform's cell group of the pivoted daily marketing table: the
aggregates of `combine_data`'s `agg` dict (processor.py lines 126-135):
sums of the four raw columns, means of the four KPI columns. -/
structure PlatformAgg where
  impression : FVal
  clicks : FVal
  spend : FVal
  arev : FVal
  ctr : FVal
  cpc : FVal
  cpm : FVal
  roas : FVal
deriving DecidableEq, Repr

/-- One row of the combined table: the business columns with KPIs, plus,
for each platform column group of the pivot, that platform's aggregates
(association list keyed by platform name, in pivot column order). -/
structure CombinedRow extends BusinessKpiRow where
  plat : List (String × PlatformAgg)
deriving DecidableEq, Repr

/-- The processor state (`DataProcessor.__init__`, processor.py
lines 24-27), after cleaning: the optional business table, the dict of
per-platform marketing tables (an association list in insertion order),
and the optional combined table. -/
structure DataProcessor where
  business_df : Option (List BusinessRow)
  marketing_dfs : List (String × List MarketingRow)
  combined_df : Option (List CombinedRow)
deriving Repr

/-- Insertion of one element into a list sorted by `le`. -/
def insertLe (le : String → String → Bool) (a : String) :
    List String → List String
  | [] => [a]
  | b :: l => if le a b then a :: b :: l else b :: insertLe le a l

/-- Insertion sort by `le` (used to model pandas' sorted group keys and
pivot column labels). -/
def sortLe (le : String → String → Bool) (l : List String) : List String :=
  l.foldr (insertLe le) []

/-- Model of `calculate_marketing_kpis` (processor.py lines 70-78): iterate the
platform dict, compute each platform's KPI frame from a copy, and
concatenate.  The state is returned unchanged: the method only reads
`self.marketing_dfs`. -/
def calculate_marketing_kpis (s : DataProcessor) :
    DataProcessor × List MarketingKpiRow :=
  (s, (s.marketing_dfs.map fun pr => calculate_platform_kpis pr.2).flatten)

/-- The platform labels of the pivot's columns: the distinct platform
values occurring in the concatenated marketing frame, in sorted order
(pandas sorts group keys and column labels). -/
def pivotPlatforms (mk : List MarketingKpiRow) : List String :=
  sortLe (fun a b => a ≤ b) ((mk.map fun r => r.platform).dedup)

/-- The `groupby(['date','platform']).agg(...)` row for one `(date,
platform)` key (processor.py lines 126-135): sums of the raw columns,
means of the KPI columns, over the rows with that date and platform. -/
def groupAgg (mk : List MarketingKpiRow) (d : ℕ) (p : String) :
    PlatformAgg :=
  let g := mk.filter fun r => r.date = d && r.platform = p
  { impression := FVal.nsum (g.map fun r => r.impression),
    clicks := FVal.nsum (g.map fun r => r.clicks),
    spend := FVal.nsum (g.map fun r => r.spend),
    arev := FVal.nsum (g.map fun r => r.arev),
    ctr := FVal.nmean (g.map fun r => r.ctr),
    cpc := FVal.nmean (g.map fun r => r.cpc),
    cpm := FVal.nmean (g.map fun r => r.cpm),
    roas := FVal.nmean (g.map fun r => r.roas) }

/-- The all-zero platform cell group: what a platform's columns hold for
a date with no data for that platform, after the final `fillna(0)`. -/
def zeroAgg : PlatformAgg :=
  { impression := FVal.fin 0, clicks := FVal.fin 0, spend := FVal.fin 0,
    arev := FVal.fin 0, ctr := FVal.fin 0, cpc := FVal.fin 0,
    cpm := FVal.fin 0, roas := FVal.fin 0 }

/-- The final `combined_df.fillna(0)` applied to one platform cell
group. -/
def fillAgg (a : PlatformAgg) : PlatformAgg :=
  { impression := FVal.fillna0 a.impression,
    clicks := FVal.fillna0 a.clicks,
    spend := FVal.fillna0 a.spend,
    arev := FVal.fillna0 a.arev,
    ctr := FVal.fillna0 a.ctr,
    cpc := FVal.fillna0 a.cpc,
    cpm := FVal.fillna0 a.cpm,
    roas := FVal.fillna0 a.roas }

/-- The final `combined_df.fillna(0)` applied to the business columns of
one combined row. -/
def fillnaBusiness (r : BusinessKpiRow) : BusinessKpiRow :=
  { date := r.date,
    orders := FVal.fillna0 r.orders,
    new_orders := FVal.fillna0 r.new_orders,
    new_customers := FVal.fillna0 r.new_customers,
    revenue := FVal.fillna0 r.revenue,
    profit := FVal.fillna0 r.profit,
    aov := FVal.fillna0 r.aov,
    profit_margin := FVal.fillna0 r.profit_margin,
    new_customer_rate := FVal.fillna0 r.new_customer_rate }

/-- The groupby/pivot/left-merge/fillna pipeline of `combine_data`
(processor.py lines 126-146) as one row construction.  The left merge on
`date` keeps one output row per business row, in order; a pivot row
exists for a date exactly when some marketing row has that date, and its
cell for platform `p` is the `(date, p)` aggregate when that group key
exists and `NaN` otherwise; the final `fillna(0)` turns every `NaN` —
absent pivot rows, absent group cells, `NaN` aggregates and `NaN`
business cells alike — into `0`.  Hence each business row's platform
cell group is the (zero-filled) aggregate when the platform has rows for
that date, and all zeros otherwise. -/
def combineRows (mk : List MarketingKpiRow) (bk : List BusinessKpiRow) :
    List CombinedRow :=
  bk.map fun b =>
    { toBusinessKpiRow := fillnaBusiness b,
      plat := (pivotPlatforms mk).map fun p =>
        (p, if mk.any (fun r => r.date = b.date && r.platform = p)
            then fillAgg (groupAgg mk b.date p)
            else zeroAgg) }

/-- The value `combine_data` returns: the bare marketing KPI frame when
no business table is loaded, else the combined frame. -/
inductive CombineResult where
  | marketingOnly (rows : List MarketingKpiRow)
  | combined (rows : List CombinedRow)
deriving Repr

/-- Model of `combine_data` (processor.py lines 117-149): compute the marketing
KPI frame and the business KPI frame; with no business table return the
marketing frame (leaving `combined_df` unset), otherwise aggregate,
pivot, left-merge on `date`, fill `NaN` with `0`, store the result in
`combined_df` and return it. -/
def combine_data (s : DataProcessor) : DataProcessor × CombineResult :=
  let mk := (calculate_marketing_kpis s).2
  match calculate_business_kpis s.business_df with
  | none => (s, CombineResult.marketingOnly mk)
  | some bk =>
      let rows := combineRows mk bk
      ({ s with combined_df := some rows }, CombineResult.combined rows)

/-- The platform column labels of a combined table (all rows share them;
pandas frames are rectangular). -/
def platColNames (df : List CombinedRow) : List String :=
  match df with
  | [] => []
  | r :: _ => r.plat.map Prod.fst

/-- The sum of one pivoted platform column over a combined table
(`df[col].sum()`, skipping `NaN`). -/
def colSum (df : List CombinedRow) (p : String) (f : PlatformAgg → FVal) :
    FVal :=
  FVal.nsum (df.map fun r => (((r.plat.lookup p).map f).getD FVal.nan))

/-- Model of `df[[col for col in df.columns if col.endswith('_spend')]].sum().sum()`
(processor.py line 159): the columns ending in `_spend` are exactly the
pivoted per-platform spend columns, so this is the total over each
platform spend column's sum. -/
def total_spend (df : List CombinedRow) : FVal :=
  FVal.nsum ((platColNames df).map fun p => colSum df p (fun a => a.spend))

/-- The same for the columns ending in `_attributed revenue`
(processor.py line 160). -/
def total_attributed_revenue (df : List CombinedRow) : FVal :=
  FVal.nsum ((platColNames df).map fun p => colSum df p (fun a => a.arev))

/-- Model of `df['total revenue'].sum()` (processor.py line 161). -/
def total_business_revenue (df : List CombinedRow) : FVal :=
  FVal.nsum (df.map fun r => r.revenue)

/-- The dict `get_summary_stats` returns (processor.py lines 169-176);
`date_range` is modelled by the pair of the minimum and maximum dates
that the code formats into a string. -/
structure SummaryStats where
  total_spend : FVal
  total_attributed_revenue : FVal
  total_business_revenue : FVal
  overall_roas : FVal
  attribution_gap : FVal
  date_range : ℕ × ℕ
deriving DecidableEq, Repr

/-- Model of `get_summary_stats` (processor.py lines 151-176): the empty dict
(modelled as `none`) when `combined_df` is `None`, otherwise the totals,
`overall_roas = total_attributed_revenue / total_spend if total_spend > 0
else 0`, and `attribution_gap = (total_business_revenue −
total_attributed_revenue) / total_business_revenue * 100 if
total_business_revenue > 0 else 0`. -/
def get_summary_stats (combined : Option (List CombinedRow)) :
    Option SummaryStats :=
  match combined with
  | none => none
  | some df =>
      some
        { total_spend := total_spend df,
          total_attributed_revenue := total_attributed_revenue df,
          total_business_revenue := total_business_revenue df,
          overall_roas :=
            if (total_spend df).isPos then
              FVal.div (total_attributed_revenue df) (total_spend df)
            else FVal.fin 0,
          attribution_gap :=
            if (total_business_revenue df).isPos then
              FVal.mul
                (FVal.div
                  (FVal.sub (total_business_revenue df)
                    (total_attributed_revenue df))
                  (total_business_revenue df))
                (FVal.fin 100)
            else FVal.fin 0,
          date_range := (((df.map fun r => r.date).min?).getD 0,
                         ((df.map fun r => r.date).max?).getD 0) }

/-- The metric columns of the `agg` dict, in order (processor.py
lines 126-135): these are the level-0 labels of the pivot's column
MultiIndex. -/
def AGG_METRICS : List String :=
  ["impression", "clicks", "spend", "attributed revenue",
   "ctr", "cpc", "cpm", "roas"]

/-- The pivot's column MultiIndex (processor.py line 138): the pairs
`(metric, platform)`, metric-major. -/
def pivotColumnPairs (platforms : List String) : List (String × String) :=
  (AGG_METRICS.map fun m => platforms.map fun p => (m, p)).flatten

/-- The renaming of one pivot column (processor.py line 139):
`f"{col[1]}_{col[0]}"`, i.e. the platform label (level 1), an
underscore, then the metric label (level 0). -/
def pivotColumnName (col : String × String) : String :=
  col.2 ++ "_" ++ col.1

/-- The flat names of the pivoted platform columns of the combined
table. -/
def combinedPlatformColumns (platforms : List String) : List String :=
  (pivotColumnPairs platforms).map pivotColumnName

/-- An observable side effect of the chat layer: one call to the
external Gemini text-generation API with the prompt that is sent. -/
inductive Effect where
  | externalApiCall (prompt : String)
deriving DecidableEq, Repr

/-- The service object `get_llm_service` returns (llm.py lines 129-134):
an `LLMService` (whose `gemini_model` is set iff initialisation
succeeded) or a `MockLLMService`. -/
inductive LLMServiceInstance where
  | service (hasModel : Bool)
  | mockService
deriving DecidableEq, Repr

/-- The fixed reply of `MockLLMService.get_chat_response` (llm.py
line 127). -/
def mock_chat_message : String :=
  "This is a mock chat response. Please set your `GOOGLE_API_KEY` to use the real AI chat."

/-- The fixed reply of `LLMService.get_chat_response` when no model is
configured (llm.py line 102). -/
def not_configured_message : String :=
  "AI chat is not configured. Please ensure your `GOOGLE_API_KEY` is set correctly."

/-- Python truthiness of `os.getenv('GOOGLE_API_KEY')`: an unset
variable is `None` (falsy) and an empty string is falsy. -/
def truthy : Option String → Bool
  | none => false
  | some s => !s.isEmpty

/-- Model of `get_llm_service` (llm.py lines 129-134): the real service when the
Gemini SDK imported and an API key is set, else the mock; `hasModel`
records whether the real service's constructor managed to build the
model. -/
def get_llm_service (geminiAvailable : Bool) (apiKey : Option String)
    (initOk : Bool) : LLMServiceInstance :=
  if geminiAvailable && truthy apiKey then
    LLMServiceInstance.service initOk
  else
    LLMServiceInstance.mockService

/-- The prompt `LLMService.get_chat_response` builds (llm.py
lines 104-117), as a function of the query and the two JSON-dumped data
arguments. -/
def chatPrompt (query dataSummary platformPerf : String) : String :=
  "You are a marketing analyst AI. A user has asked a question about their marketing data.\n"
    ++ "Answer the user's query based on the data provided below.\n\n"
    ++ "User Query: \"" ++ query ++ "\"\n\n"
    ++ "High-Level Marketing Data Summary:\n" ++ dataSummary ++ "\n\n"
    ++ "Platform Performance Breakdown:\n" ++ platformPerf ++ "\n\n"
    ++ "Provide a concise and helpful answer to the user's query based on the provided data."

/-- Model of `get_chat_response` of either service (llm.py lines 99-122 and
126-127), with its observable external calls made explicit.  The mock
answers its fixed message with no API call; the real service without a
configured model answers its fixed message with no API call; the real
service with a model calls the API once with the built prompt and
returns the API's text (a parameter here, the external world's
response). -/
def service_get_chat_response (svc : LLMServiceInstance)
    (query dataSummary platformPerf apiResponse : String) :
    List Effect × String :=
  match svc with
  | LLMServiceInstance.mockService => ([], mock_chat_message)
  | LLMServiceInstance.service hasModel =>
      if hasModel then
        ([Effect.externalApiCall (chatPrompt query dataSummary platformPerf)],
         apiResponse)
      else ([], not_configured_message)

/-! ## Theorems -/

/-- Helper: a finite cell is never `NaN` (used to evaluate the skip-`NaN`
sums on concrete tables). -/
theorem fin_ne_nan (q : ℚ) : (FVal.fin q = FVal.nan) = False :=
  eq_false (fun h => FVal.noConfusion h)

/-- C7: after a successful `load_data`, for each platform in the fixed
set `PLATFORMS = {Facebook, Google, TikTok}`, every row of that
platform's marketing table has its `platform` column equal to that
platform's name. -/
theorem load_data_tags_platform (files : String → List CsvMarketingRow)
    (p : String) (dfs : List RawMarketingRow)
    (hp : (p, dfs) ∈ load_data files) (r : RawMarketingRow) (hr : r ∈ dfs) :
    r.platform = p := by
  unfold load_data at hp
  rcases List.mem_map.1 hp with ⟨q, -, heq⟩
  injection heq with h1 h2
  subst h1
  subst h2
  rcases List.mem_map.1 hr with ⟨c, -, rfl⟩
  rfl

/-- A concrete input for `load_data_tags_platform`: a one-row CSV per
platform. -/
def wFiles : String → List CsvMarketingRow := fun _ =>
  [{ date := 1, impression := Cell.blank, clicks := Cell.blank,
     spend := Cell.blank, arev := Cell.blank }]

/-- The row `load_data wFiles` produces for the Google table. -/
def wGoogleRow : RawMarketingRow :=
  { date := 1, platform := "Google", impression := Cell.blank,
    clicks := Cell.blank, spend := Cell.blank, arev := Cell.blank }

theorem load_data_tags_platform_witness :
    ("Google", [wGoogleRow]) ∈ load_data wFiles ∧ wGoogleRow.platform = "Google" :=
  ⟨by decide, load_data_tags_platform wFiles "Google" [wGoogleRow] (by decide)
    wGoogleRow (by decide)⟩

/-- C8: when no combined table has been produced (`combined_df` is
`None`), `get_summary_stats` returns the empty dict (modelled `none`)
instead of failing. -/
theorem get_summary_stats_none : get_summary_stats none = none := rfl

/-- C9: `calculate_marketing_kpis` leaves the stored per-platform
marketing tables unchanged — the KPI columns are computed on a copy
(`df.copy()` in `_calculate_platform_kpis`), so the state it returns
holds the same `marketing_dfs` it was given. -/
theorem calculate_marketing_kpis_preserves_state (s : DataProcessor) :
    ((calculate_marketing_kpis s).1).marketing_dfs = s.marketing_dfs := rfl

/-- C10: with no (or an empty) `GOOGLE_API_KEY`, `get_llm_service`
returns the mock service, whose `get_chat_response` answers the fixed
configuration message for every query with no external API call
(an empty effect list). -/
theorem no_key_chat_is_mock (geminiAvailable initOk : Bool)
    (apiKey : Option String) (q ds pp resp : String)
    (h : truthy apiKey = false) :
    service_get_chat_response (get_llm_service geminiAvailable apiKey initOk)
      q ds pp resp = ([], mock_chat_message) := by
  simp [get_llm_service, h, service_get_chat_response]

theorem no_key_chat_is_mock_witness :
    truthy none = false ∧
    service_get_chat_response (get_llm_service true none true)
      "What is my ROAS?" "summary" "performance" "api reply"
      = ([], mock_chat_message) :=
  ⟨rfl, no_key_chat_is_mock true true none
    "What is my ROAS?" "summary" "performance" "api reply" rfl⟩

/-- C6: after cleaning, each value in the fixed set of numeric columns
that does not parse as a number has been replaced by the missing value
`NaN` (no error, no text kept): `pd.to_numeric(..., errors='coerce')`. -/
theorem convert_numeric_coerces_text (r : RawMarketingRow) (col : String)
    (s : String) (hc : col ∈ MARKETING_COLUMNS)
    (hv : rawCol r col = some (Cell.text s)) :
    cleanCol (convert_numeric_columns r) col = some FVal.nan := by
  fin_cases hc <;>
    simp_all [rawCol, cleanCol, convert_numeric_columns, to_numeric_coerce]

/-- A raw row holding an unparseable text value in its `spend` column. -/
def wBadRow : RawMarketingRow :=
  { date := 3, platform := "TikTok", impression := Cell.blank,
    clicks := Cell.blank, spend := Cell.text "n/a", arev := Cell.blank }

theorem convert_numeric_coerces_text_witness :
    "spend" ∈ MARKETING_COLUMNS ∧
    cleanCol (convert_numeric_columns wBadRow) "spend" = some FVal.nan :=
  ⟨by decide, convert_numeric_coerces_text wBadRow "spend" "n/a"
    (by decide) (by decide)⟩

/-- C5: every pivoted platform column of the combined table is named
`platform ++ "_" ++ metric` — the platform name is a prefix of the
column name (e.g. the spend column of platform `P` is `P_spend`). -/
theorem combined_platform_columns_prefixed (platforms : List String)
    (name : String) (h : name ∈ combinedPlatformColumns platforms) :
    ∃ p ∈ platforms, ∃ m ∈ AGG_METRICS,
      name = p ++ "_" ++ m ∧ ∃ rest, name = p ++ rest := by
  unfold combinedPlatformColumns pivotColumnPairs at h
  rcases List.mem_map.1 h with ⟨⟨m, p⟩, hmp, rfl⟩
  rcases List.mem_flatten.1 hmp with ⟨l, hl, hmem⟩
  rcases List.mem_map.1 hl with ⟨m', hm', rfl⟩
  rcases List.mem_map.1 hmem with ⟨p', hp', heq⟩
  injection heq with e1 e2
  subst e1
  subst e2
  exact ⟨p', hp', m', hm', rfl, "_" ++ m', (String.append_assoc p' "_" m')⟩

theorem combined_platform_columns_prefixed_witness :
    "Facebook_spend" ∈ combinedPlatformColumns ["Facebook"] ∧
    ∃ p ∈ ["Facebook"], ∃ m ∈ AGG_METRICS,
      "Facebook_spend" = p ++ "_" ++ m ∧
      ∃ rest, "Facebook_spend" = p ++ rest :=
  ⟨by decide,
   combined_platform_columns_prefixed ["Facebook"] "Facebook_spend" (by decide)⟩

/-- C1 fails on the code: `fillna(0)` replaces only `NaN` (the `0/0`
case), not the infinities a positive numerator over a zero denominator
produces.  A marketing row with `impression = 0` and `clicks = 5` gets
`ctr = +∞` in the output, and a business row with `# of orders = 0` and
`total revenue = 7` gets `aov = +∞` — contradicting both the invariant
(never `∞` in output) and `ctr = 0`/`aov = 0` at a zero denominator. -/
theorem kpi_output_infinite_on_zero_denominator :
    (kpiRow { date := 0, platform := "Facebook", impression := FVal.fin 0,
              clicks := FVal.fin 5, spend := FVal.fin 1,
              arev := FVal.fin 0 }).ctr = FVal.pinf ∧
    (businessKpiRow
      { date := 0, orders := FVal.fin 0,
        new_orders := FVal.fin 0, new_customers := FVal.fin 0,
        revenue := FVal.fin 7, profit := FVal.fin 0 }).aov
      = FVal.pinf := by
  constructor <;>
    norm_num [kpiRow, businessKpiRow, FVal.div, FVal.mul, FVal.fillna0,
      FVal.rnd2]

/-- The marketing row on which the C3 formulas fail: `impression = 3`,
`clicks = 1` (the output `ctr` is rounded, hence not exactly
`clicks/impressions·100`), and `spend = 0` with `attributed revenue = 5`
(the output `roas` is `+∞`, not `0`). -/
def cexRow : MarketingRow :=
  { date := 0, platform := "Facebook", impression := FVal.fin 3,
    clicks := FVal.fin 1, spend := FVal.fin 0, arev := FVal.fin 5 }

/-- C3 as stated fails at `cexRow`: its impressions are positive yet the
output `ctr` differs from `clicks/impressions × 100` (the code rounds to
two decimals), and its spend is `0` yet the output `roas` is not `0`
(it is `+∞`). -/
theorem kpi_formula_claim_cex :
    (0:ℚ) < 3 ∧ (kpiRow cexRow).ctr ≠ FVal.fin (1 / 3 * 100) ∧
    cexRow.spend = FVal.fin 0 ∧ (kpiRow cexRow).roas ≠ FVal.fin 0 := by
  refine ⟨by norm_num, ?_, rfl, ?_⟩
  · norm_num [cexRow, kpiRow, FVal.div, FVal.mul, FVal.fillna0, FVal.rnd2,
      FVal.round2, FVal.roundHalfEven]
  · have h : (kpiRow cexRow).roas = FVal.pinf := by
      norm_num [cexRow, kpiRow, FVal.div, FVal.fillna0, FVal.rnd2]
    rw [h]
    exact fun hc => FVal.noConfusion hc

/-- A cleaned marketing row with all-finite numeric cells. -/
def finRow (d : ℕ) (pl : String) (i c sp ar : ℚ) : MarketingRow :=
  { date := d, platform := pl, impression := FVal.fin i,
    clicks := FVal.fin c, spend := FVal.fin sp, arev := FVal.fin ar }

/-- C3 (amended): on a row with finite numeric cells the output KPIs
satisfy, rounded to two decimals (ties to even): `ctr =
clicks/impressions·100` when impressions are positive, `cpc =
spend/clicks` when clicks are positive, `cpm = spend/(impressions/1000)`
when impressions are positive, `roas = attributed revenue/spend` when
spend is positive; and `roas = 0` when spend is `0` holds when the
attributed revenue is also `0` (a positive revenue over zero spend gives
`+∞`, per `kpi_formula_claim_cex`). -/
theorem kpi_formulas (d : ℕ) (pl : String) (i c sp ar : ℚ) :
    (0 < i → (kpiRow (finRow d pl i c sp ar)).ctr
      = FVal.fin (FVal.round2 (c / i * 100))) ∧
    (0 < c → (kpiRow (finRow d pl i c sp ar)).cpc
      = FVal.fin (FVal.round2 (sp / c))) ∧
    (0 < i → (kpiRow (finRow d pl i c sp ar)).cpm
      = FVal.fin (FVal.round2 (sp / (i / 1000)))) ∧
    (0 < sp → (kpiRow (finRow d pl i c sp ar)).roas
      = FVal.fin (FVal.round2 (ar / sp))) ∧
    (sp = 0 → ar = 0 → (kpiRow (finRow d pl i c sp ar)).roas
      = FVal.fin 0) := by
  refine ⟨fun h => ?_, fun h => ?_, fun h => ?_, fun h => ?_,
    fun h h' => ?_⟩
  · simp [finRow, kpiRow, FVal.div, FVal.mul, FVal.fillna0, FVal.rnd2,
      h.ne']
  · simp [finRow, kpiRow, FVal.div, FVal.mul, FVal.fillna0, FVal.rnd2,
      h.ne']
  · have h1 : i / 1000 ≠ 0 := by positivity
    simp [finRow, kpiRow, FVal.div, FVal.mul, FVal.fillna0, FVal.rnd2,
      h1]
  · simp [finRow, kpiRow, FVal.div, FVal.mul, FVal.fillna0, FVal.rnd2,
      h.ne']
  · subst h
    subst h'
    norm_num [finRow, kpiRow, FVal.div, FVal.fillna0, FVal.rnd2,
      FVal.round2, FVal.roundHalfEven]

theorem kpi_formulas_witness :
    (0:ℚ) < 2 ∧
    (kpiRow (finRow 0 "Facebook" 2 1 4 8)).ctr = FVal.fin 50 := by
  refine ⟨by norm_num, ?_⟩
  have h := (kpi_formulas 0 "Facebook" 2 1 4 8).1 (by norm_num)
  rw [h]
  norm_num [FVal.round2, FVal.roundHalfEven]

/-- C4: when the three totals of a combined table are finite,
`get_summary_stats` returns `attribution_gap = (total business revenue −
total attributed revenue)/total business revenue · 100` if the business
revenue is positive and `0` if it is `0`, and `overall_roas = total
attributed revenue / total spend` if the spend is positive and `0` if it
is `0`. -/
theorem summary_stats_formulas (df : List CombinedRow) (a b c : ℚ)
    (ha : total_attributed_revenue df = FVal.fin a)
    (hb : total_business_revenue df = FVal.fin b)
    (hc : total_spend df = FVal.fin c) :
    ∃ st, get_summary_stats (some df) = some st ∧
      (0 < b → st.attribution_gap = FVal.fin ((b - a) / b * 100)) ∧
      (b = 0 → st.attribution_gap = FVal.fin 0) ∧
      (0 < c → st.overall_roas = FVal.fin (a / c)) ∧
      (c = 0 → st.overall_roas = FVal.fin 0) := by
  refine ⟨_, rfl, fun h => ?_, fun h => ?_, fun h => ?_, fun h => ?_⟩
  · simp only [get_summary_stats, ha, hb, hc]
    rw [if_pos (by simp [FVal.isPos, h])]
    simp [FVal.sub, FVal.neg, FVal.add, FVal.div, FVal.mul, h.ne']
    ring_nf
  · subst h
    simp [get_summary_stats, hb, FVal.isPos]
  · simp only [get_summary_stats, ha, hb, hc]
    rw [if_pos (by simp [FVal.isPos, h])]
    simp [FVal.div, h.ne']
  · subst h
    simp [get_summary_stats, hc, FVal.isPos]

/-- A concrete one-row combined table: revenue 100, one Facebook column
group with spend 25 and attributed revenue 50. -/
def wCombined : List CombinedRow :=
  [{ date := 1, orders := FVal.fin 1, new_orders := FVal.fin 0,
     new_customers := FVal.fin 0, revenue := FVal.fin 100,
     profit := FVal.fin 10, aov := FVal.fin 100,
     profit_margin := FVal.fin 10, new_customer_rate := FVal.fin 0,
     plat := [("Facebook",
       { impression := FVal.fin 10, clicks := FVal.fin 1,
         spend := FVal.fin 25, arev := FVal.fin 50, ctr := FVal.fin 10,
         cpc := FVal.fin 25, cpm := FVal.fin 2500,
         roas := FVal.fin 2 })] }]

theorem summary_stats_formulas_witness :
    total_spend wCombined = FVal.fin 25 ∧
    (get_summary_stats (some wCombined)).map (fun st => st.overall_roas)
      = some (FVal.fin 2) ∧
    (get_summary_stats (some wCombined)).map (fun st => st.attribution_gap)
      = some (FVal.fin 50) := by
  have hc : total_spend wCombined = FVal.fin 25 := by
    norm_num [total_spend, wCombined, platColNames, colSum, FVal.nsum,
      List.lookup, List.filter, FVal.add, fin_ne_nan]
  have ha : total_attributed_revenue wCombined = FVal.fin 50 := by
    norm_num [total_attributed_revenue, wCombined, platColNames, colSum,
      FVal.nsum, List.lookup, List.filter, FVal.add, fin_ne_nan]
  have hb : total_business_revenue wCombined = FVal.fin 100 := by
    norm_num [total_business_revenue, wCombined, FVal.nsum, List.filter,
      FVal.add, fin_ne_nan]
  obtain ⟨st, hst, g1, -, g3, -⟩ :=
    summary_stats_formulas wCombined 50 100 25 ha hb hc
  refine ⟨hc, ?_, ?_⟩
  · rw [hst, Option.map_some']
    rw [g3 (by norm_num)]
    norm_num
  · rw [hst, Option.map_some']
    rw [g1 (by norm_num)]
    norm_num

/-- C2: with a business table loaded (one row per date), `combine_data`
returns a combined table with exactly one row per business row (in
particular the row counts agree and every business date appears exactly
once), and any platform column group for a date with no marketing rows
for that platform holds zeros rather than being absent. -/
theorem combine_data_business_alignment (s : DataProcessor)
    (bdf : List BusinessRow) (hb : s.business_df = some bdf)
    (hnd : (bdf.map fun r => r.date).Nodup) :
    ∃ rows, (combine_data s).2 = CombineResult.combined rows ∧
      rows.length = bdf.length ∧
      (∀ d, d ∈ bdf.map (fun r => r.date) →
        (rows.map fun r => r.date).count d = 1) ∧
      (∀ r ∈ rows, ∀ p a, (p, a) ∈ r.plat →
        (∀ m ∈ (calculate_marketing_kpis s).2,
          ¬(m.date = r.date ∧ m.platform = p)) →
        a = zeroAgg) := by
  refine ⟨combineRows (calculate_marketing_kpis s).2 (bdf.map businessKpiRow),
    ?_, ?_, ?_, ?_⟩
  · simp [combine_data, calculate_business_kpis, hb]
  · simp [combineRows]
  · intro d hd
    have hdates :
        ((combineRows (calculate_marketing_kpis s).2
          (bdf.map businessKpiRow)).map fun r => r.date)
          = bdf.map (fun r => r.date) := by
      simp only [combineRows, List.map_map]
      rfl
    rw [hdates]
    exact List.count_eq_one_of_mem hnd hd
  · intro r hr p a hpa hnone
    rcases List.mem_map.1 hr with ⟨b', -, rfl⟩
    rcases List.mem_map.1 hpa with ⟨q, -, heq⟩
    injection heq with e1 e2
    subst e1
    subst e2
    rw [if_neg]
    intro hany
    rcases List.any_eq_true.1 hany with ⟨m, hm, hf⟩
    rw [Bool.and_eq_true, decide_eq_true_eq, decide_eq_true_eq] at hf
    exact hnone m hm ⟨hf.1, hf.2⟩

/-- A concrete one-row business table (date 1). -/
def wBiz : List BusinessRow :=
  [{ date := 1, orders := FVal.fin 2, new_orders := FVal.fin 1,
     new_customers := FVal.fin 1, revenue := FVal.fin 100,
     profit := FVal.fin 30 }]

/-- A concrete cleaned marketing row at date 2 (no marketing data for
the business date 1). -/
def wMRow : MarketingRow :=
  { date := 2, platform := "Facebook", impression := FVal.fin 10,
    clicks := FVal.fin 1, spend := FVal.fin 5, arev := FVal.fin 8 }

/-- A concrete processor state after cleaning. -/
def wProc : DataProcessor :=
  { business_df := some wBiz,
    marketing_dfs := [("Facebook", [wMRow])],
    combined_df := none }

theorem combine_data_business_alignment_witness :
    wProc.business_df = some wBiz ∧ ((wBiz.map fun r => r.date).Nodup) ∧
    (∃ rows, (combine_data wProc).2 = CombineResult.combined rows ∧
      rows.length = wBiz.length ∧
      (∀ d, d ∈ wBiz.map (fun r => r.date) →
        (rows.map fun r => r.date).count d = 1) ∧
      (∀ r ∈ rows, ∀ p a, (p, a) ∈ r.plat →
        (∀ m ∈ (calculate_marketing_kpis wProc).2,
          ¬(m.date = r.date ∧ m.platform = p)) →
        a = zeroAgg)) :=
  ⟨rfl, by simp [wBiz],
   combine_data_business_alignment wProc wBiz rfl (by simp [wBiz])⟩
